import Mathlib

/-!
Verification of the room-relay chat servers of this repository.

The repository contains three implementations of the room registry /
broadcast engine:

* `ServerTTL`   — the standalone Node server with a 10-minute idle TTL,
  room capacity 2, and chat-only message handling;
* `ServerFixed` — the standalone Node server variant without expiry,
  with the fixed room code "0000", capacity 10, and join/chat/image
  message handling;
* `RoomService` — the Electron in-process `RoomService` class.

The model below is a shallow embedding of those sources.  JavaScript
`Map`s become association lists (insertion keeps order, `set` of a new
key appends), `Set<WebSocket>` becomes a list of `WS` values deduplicated
by object identity (`id`), `Date.now()` becomes an explicit `now : Int`
parameter, `Math.floor(Math.random() * 10000)` becomes an explicit stream
of draws in `Fin 10000`, and a handler's outbound `ws.send` calls become
an ordered list of `(receiver id, message)` pairs.
-/

set_option maxHeartbeats 1000000

namespace RoomRelay

/-- The `ws` library constant `WebSocket.OPEN`. -/
def OPEN : Nat := 1

/-- One WebSocket client as stored in a room's client set.  `id` models
JavaScript object identity; `readyState` mirrors the ws field read by
`broadcast`. -/
structure WS where
  id : Nat
  readyState : Nat
deriving DecidableEq, Repr

/-- A stored chat/image record, mirroring the object literals pushed onto
`room.messages` by the standalone servers.  A field that the record does
not carry is `none`. -/
structure LogMsg where
  type : String
  code : String
  userId : String
  message : Option String := none
  image : Option String := none
  ts : Int
deriving DecidableEq, Repr

/-- Room state of the standalone servers:
`{ clients: Set<WebSocket>, lastActive: number, messages: any[] }`. -/
structure Room where
  clients : List WS
  lastActive : Int
  messages : List LogMsg
deriving DecidableEq, Repr

/-- The global `rooms` map (`code -> room`), as an association list in
insertion order. -/
abbrev RoomsMap := List (String × Room)

/-- `rooms.has(code)` (string-keyed JavaScript `Map`, any value type). -/
def hasRoom {B : Type} (rooms : List (String × B)) (code : String) : Bool :=
  rooms.any (fun kv => kv.1 == code)

/-- `rooms.get(code)`. -/
def getRoom {B : Type} (rooms : List (String × B)) (code : String) : Option B :=
  (rooms.find? (fun kv => kv.1 == code)).map (fun kv => kv.2)

/-- `rooms.set(code, r)`: replace in place when the key exists, append
otherwise (JavaScript `Map` insertion order). -/
def setRoom {B : Type} (rooms : List (String × B)) (code : String) (r : B) :
    List (String × B) :=
  if hasRoom rooms code then
    rooms.map (fun kv => if kv.1 == code then (kv.1, r) else kv)
  else
    rooms ++ [(code, r)]

/-- `room.clients.add(ws)`: a `Set` add is a no-op when the same object is
already a member. -/
def addClient (clients : List WS) (ws : WS) : List WS :=
  if clients.any (fun c => c.id == ws.id) then clients else clients ++ [ws]

/-- The outbound frames the standalone servers ever serialize. -/
inductive ServerMsg where
  | error (message : String)
  | joined (code : String)
  | history (messages : List LogMsg)
  | system (message : String) (ts : Int)
  | log (m : LogMsg)
deriving DecidableEq, Repr

/-- Ordered list of `ws.send` calls performed by a handler, as
`(receiver id, frame)` pairs. -/
abbrev Sends := List (Nat × ServerMsg)

/-- `broadcast(room, payload)`: send the serialized payload to every
client of the room whose `readyState` is `OPEN`. -/
def broadcastList (clients : List WS) (payload : ServerMsg) : Sends :=
  (clients.filter (fun c => c.readyState == OPEN)).map (fun c => (c.id, payload))

/-- A parsed inbound JSON frame, restricted to the fields any server
reads.  A missing field is `none`; a missing or non-string `type` behaves
exactly like an unmatched type string. -/
structure Payload where
  type : String := ""
  message : Option String := none
  image : Option String := none
  userId : Option String := none
  code : Option String := none
  ts : Option Int := none
deriving DecidableEq, Repr

/-- JavaScript truthiness of a possibly-absent string field: absent
(`undefined`) and the empty string are falsy. -/
def truthy : Option String → Bool
  | none => false
  | some s => !s.isEmpty

/-- Result of a connection-level event: the updated registry, the ordered
sends, and the ids of connections the server called `close()` on. -/
structure ConnResult where
  rooms : RoomsMap
  sends : Sends
  closed : List Nat
deriving DecidableEq, Repr

/-- `String.padStart` of JavaScript: left-pad with `c` up to length `n`. -/
def padStart (s : String) (n : Nat) (c : Char) : String :=
  String.mk (List.replicate (n - s.length) c ++ s.data)

/-- `Math.floor(Math.random() * 10000).toString().padStart(4, "0")`
applied to one draw. -/
def padCode (d : Nat) : String :=
  padStart (Nat.repr d) 4 '0'

/-! ### Facts about the generated code strings -/

theorem length_padStart (s : String) (n : Nat) (c : Char) :
    (padStart s n c).length = (n - s.length) + s.length := by
  simp only [padStart, String.length_mk, List.length_append, List.length_replicate]
  rfl

theorem digitChar_isDigit : ∀ m : Nat, m < 10 → (Nat.digitChar m).isDigit = true := by
  decide

theorem toDigitsCore_ten_digits :
    ∀ (f n : Nat) (acc : List Char), (∀ c ∈ acc, c.isDigit = true) →
      ∀ c ∈ Nat.toDigitsCore 10 f n acc, c.isDigit = true := by
  intro f
  induction f with
  | zero =>
    intro n acc hacc c hc
    simp only [Nat.toDigitsCore] at hc
    exact hacc c hc
  | succ f ih =>
    intro n acc hacc c hc
    simp only [Nat.toDigitsCore] at hc
    have hdig : (Nat.digitChar (n % 10)).isDigit = true :=
      digitChar_isDigit _ (Nat.mod_lt _ (by decide))
    by_cases h0 : n / 10 = 0
    · simp only [h0, if_pos rfl] at hc
      rcases List.mem_cons.mp hc with h | h
      · exact h ▸ hdig
      · exact hacc c h
    · simp only [if_neg h0] at hc
      refine ih (n / 10) (Nat.digitChar (n % 10) :: acc) ?_ c hc
      intro x hx
      rcases List.mem_cons.mp hx with h | h
      · exact h ▸ hdig
      · exact hacc x h

theorem repr_all_digits (n : Nat) : ∀ c ∈ (Nat.repr n).data, c.isDigit = true := by
  intro c hc
  have : (Nat.repr n).data = Nat.toDigitsCore 10 (n + 1) n [] := rfl
  rw [this] at hc
  exact toDigitsCore_ten_digits (n + 1) n [] (by intro c h; cases h) c hc

/-- Each generated code is a 4-character all-digit string. -/
theorem padCode_spec (d : Nat) (hd : d < 10000) :
    (padCode d).length = 4 ∧ (padCode d).data.all Char.isDigit = true := by
  have hlen : (Nat.repr d).length ≤ 4 :=
    Nat.repr_length d 4 (by decide) (by simpa using hd)
  constructor
  · rw [padCode, length_padStart]
    omega
  · rw [padCode, padStart]
    simp only [String.data, List.all_append, Bool.and_eq_true, List.all_eq_true]
    constructor
    · intro c hc
      rcases List.eq_of_mem_replicate hc with rfl
      decide
    · intro c hc
      exact repr_all_digits d c hc

/-! ### Facts about the registry map and client sets -/

theorem hasRoom_iff_mem {B : Type} (rooms : List (String × B)) (code : String) :
    hasRoom rooms code = true ↔ code ∈ rooms.map Prod.fst := by
  constructor
  · intro h
    simp only [hasRoom, List.any_eq_true, beq_iff_eq] at h
    obtain ⟨kv, hkv, hke⟩ := h
    exact List.mem_map.mpr ⟨kv, hkv, hke⟩
  · intro h
    obtain ⟨kv, hkv, hke⟩ := List.mem_map.mp h
    simp only [hasRoom, List.any_eq_true, beq_iff_eq]
    exact ⟨kv, hkv, hke⟩

theorem getRoom_replace {B : Type} (rooms : List (String × B)) (code : String) (r : B)
    (h : hasRoom rooms code = true) :
    getRoom (rooms.map (fun kv => if kv.1 == code then (kv.1, r) else kv)) code
      = some r := by
  induction rooms with
  | nil => simp [hasRoom] at h
  | cons kv tl ih =>
    rw [List.map_cons]
    cases hk : (kv.1 == code) with
    | true =>
      rw [if_pos rfl]
      simp [getRoom, hk]
    | false =>
      rw [if_neg (by simp)]
      have htl : hasRoom tl code = true := by
        simp only [hasRoom, List.any_cons, hk, Bool.false_or] at h
        exact h
      have hrec := ih htl
      simp only [getRoom] at hrec ⊢
      simpa [hk] using hrec

theorem getRoom_append_new {B : Type} (rooms : List (String × B)) (code : String) (r : B)
    (h : hasRoom rooms code = false) :
    getRoom (rooms ++ [(code, r)]) code = some r := by
  induction rooms with
  | nil => simp [getRoom]
  | cons kv tl ih =>
    have hk : (kv.1 == code) = false := by
      simp only [hasRoom, List.any_cons, Bool.or_eq_false_iff] at h
      exact h.1
    have htl : hasRoom tl code = false := by
      simp only [hasRoom, List.any_cons, Bool.or_eq_false_iff] at h
      exact h.2
    rw [List.cons_append]
    have hrec := ih htl
    simp only [getRoom] at hrec ⊢
    simpa [hk] using hrec

theorem getRoom_setRoom {B : Type} (rooms : List (String × B)) (code : String) (r : B) :
    getRoom (setRoom rooms code r) code = some r := by
  unfold setRoom
  cases h : hasRoom rooms code with
  | true => rw [if_pos rfl]; exact getRoom_replace rooms code r h
  | false =>
    rw [if_neg (by simp)]
    exact getRoom_append_new rooms code r h

theorem hasRoom_setRoom {B : Type} (rooms : List (String × B)) (code : String) (r : B) :
    hasRoom (setRoom rooms code r) code = true := by
  unfold setRoom
  cases h : hasRoom rooms code with
  | true =>
    rw [if_pos rfl]
    simp only [hasRoom, List.any_eq_true, beq_iff_eq] at h ⊢
    obtain ⟨kv, hkv, hke⟩ := h
    refine ⟨(kv.1, r), List.mem_map.mpr ⟨kv, hkv, ?_⟩, hke⟩
    rw [if_pos (by simp [hke])]
  | false =>
    rw [if_neg (by simp)]
    simp [hasRoom]

theorem keys_setRoom_new {B : Type} (rooms : List (String × B)) (code : String) (r : B)
    (h : hasRoom rooms code = false) :
    (setRoom rooms code r).map Prod.fst = rooms.map Prod.fst ++ [code] := by
  unfold setRoom
  rw [if_neg (by simp [h])]
  simp

/-- Inserting a fresh code keeps the registry keys duplicate-free. -/
theorem nodup_setRoom_new {B : Type} (rooms : List (String × B)) (code : String) (r : B)
    (h : hasRoom rooms code = false)
    (hnd : (rooms.map Prod.fst).Nodup) :
    ((setRoom rooms code r).map Prod.fst).Nodup := by
  rw [keys_setRoom_new rooms code r h]
  rw [List.nodup_append]
  refine ⟨hnd, List.nodup_singleton code, ?_⟩
  intro x hx hmem
  rcases List.mem_singleton.mp hmem with rfl
  rw [← hasRoom_iff_mem] at hx
  rw [hx] at h
  cases h

theorem hasRoom_of_getRoom {B : Type} (rooms : List (String × B)) (code : String)
    (r : B) (h : getRoom rooms code = some r) : hasRoom rooms code = true := by
  unfold getRoom at h
  cases hfind : rooms.find? (fun kv => kv.1 == code) with
  | none => rw [hfind] at h; cases h
  | some kv =>
    simp only [hasRoom, List.any_eq_true]
    have hp := @List.find?_some (String × B) (fun kv => kv.1 == code) kv rooms hfind
    exact ⟨kv, List.mem_of_find?_eq_some hfind, hp⟩

theorem addClient_mem (clients : List WS) (ws : WS) :
    ∃ c ∈ addClient clients ws, c.id = ws.id := by
  unfold addClient
  by_cases h : clients.any (fun c => c.id == ws.id)
  · rw [if_pos h]
    simp only [List.any_eq_true, beq_iff_eq] at h
    obtain ⟨c, hc, he⟩ := h
    exact ⟨c, hc, he⟩
  · rw [if_neg h]
    exact ⟨ws, List.mem_append_right _ (List.mem_singleton.mpr rfl), rfl⟩

theorem addClient_fresh (clients : List WS) (ws : WS)
    (h : ∀ c ∈ clients, c.id ≠ ws.id) :
    addClient clients ws = clients ++ [ws] := by
  unfold addClient
  rw [if_neg]
  simp only [List.any_eq_true, beq_iff_eq, not_exists]
  intro c
  intro hc
  exact h c hc.1 hc.2

theorem mem_broadcastList (clients : List WS) (payload : ServerMsg) (c : WS)
    (hc : c ∈ clients) (hopen : c.readyState = OPEN) :
    (c.id, payload) ∈ broadcastList clients payload := by
  unfold broadcastList
  exact List.mem_map.mpr ⟨c, List.mem_filter.mpr ⟨hc, by simp [hopen]⟩, rfl⟩

/-- `find?` commutes with a filter that keeps the found element. -/
theorem find?_filter {α : Type} (l : List α) (p q : α → Bool) (a : α)
    (hfind : l.find? q = some a) (hkeep : p a = true) :
    (l.filter p).find? q = some a := by
  induction l with
  | nil => cases hfind
  | cons x tl ih =>
    cases hq : q x with
    | true =>
      rw [List.find?_cons_of_pos _ hq] at hfind
      cases hfind
      rw [List.filter_cons, if_pos hkeep, List.find?_cons_of_pos _ hq]
    | false =>
      rw [List.find?_cons_of_neg _ (by simp [hq])] at hfind
      rw [List.filter_cons]
      by_cases hp : p x = true
      · rw [if_pos hp, List.find?_cons_of_neg _ (by simp [hq])]
        exact ih hfind
      · rw [if_neg hp]
        exact ih hfind

/-! ### The `wss.on("connection")` join sequence

Both standalone servers run the identical join sequence; they differ only
in the capacity literal (`2` in the TTL server, `10` in the non-expiring
one) and in their message handlers. -/

/-- `wss.on("connection", (ws, request, roomCode, userId) => ...)` up to
the registration of the message/close listeners. -/
def handleConnectionWith (limit : Nat) (rooms : RoomsMap) (ws : WS)
    (roomCode userId : String) (now : Int) : ConnResult :=
  match getRoom rooms roomCode with
  | none =>
    { rooms := rooms
      sends := [(ws.id, ServerMsg.error "Room not found")]
      closed := [ws.id] }
  | some room =>
    if limit ≤ room.clients.length then
      { rooms := rooms
        sends := [(ws.id, ServerMsg.error "Room is full")]
        closed := [ws.id] }
    else
      let room1 : Room :=
        { room with clients := addClient room.clients ws, lastActive := now }
      let histSends : Sends :=
        if room1.messages.length == 0 then []
        else [(ws.id, ServerMsg.history room1.messages)]
      let sysMsg := ServerMsg.system ("User " ++ userId.take 4 ++ " joined") now
      { rooms := setRoom rooms roomCode room1
        sends := (ws.id, ServerMsg.joined roomCode)
                   :: (histSends ++ broadcastList room1.clients sysMsg)
        closed := [] }

/-- Outcome of `server.on("upgrade")`: the raw socket is destroyed
pre-upgrade, or the connection event fires with the bound code/identity. -/
inductive UpgradeResult where
  | destroyed
  | connected (code : String) (userId : String)
deriving DecidableEq, Repr

/-- `server.on("upgrade", ...)`: path must be `/ws`, the `code` query
parameter must be present, non-empty and validate against the registry;
`userId` falls back to a random UUID when absent or empty. -/
def upgradeHandler (rooms : RoomsMap) (pathname : String)
    (codeParam userIdParam : Option String) (randomId : String) : UpgradeResult :=
  if pathname != "/ws" then UpgradeResult.destroyed
  else
    let userId :=
      match userIdParam with
      | some s => if s.isEmpty then randomId else s
      | none => randomId
    match codeParam with
    | none => UpgradeResult.destroyed
    | some code =>
      if code.isEmpty then UpgradeResult.destroyed
      else if hasRoom rooms code then UpgradeResult.connected code userId
      else UpgradeResult.destroyed

/-- A whole inbound connection attempt: the upgrade gate followed, on
success, by the connection handler.  A destroyed socket receives no
frames at all. -/
def attemptJoinWith (limit : Nat) (rooms : RoomsMap) (pathname : String)
    (codeParam userIdParam : Option String) (randomId : String) (ws : WS)
    (now : Int) : ConnResult :=
  match upgradeHandler rooms pathname codeParam userIdParam randomId with
  | UpgradeResult.destroyed => { rooms := rooms, sends := [], closed := [] }
  | UpgradeResult.connected code userId =>
    handleConnectionWith limit rooms ws code userId now

namespace ServerTTL

/-- `const ttlMs = 10 * 60 * 1000`. -/
def ttlMs : Int := 10 * 60 * 1000

/-- `createCode()` of the TTL server: re-roll
`Math.floor(Math.random() * 10000)` until the padded code is unused, then
insert a fresh room.  The stream of draws is explicit; an exhausted
stream returns `none` (the do-while loop would keep drawing). -/
def createCode : List (Fin 10000) → RoomsMap → Int → Option (String × RoomsMap)
  | [], _, _ => none
  | d :: rest, rooms, now =>
    let code := padCode d.val
    if hasRoom rooms code then createCode rest rooms now
    else
      some (code, setRoom rooms code { clients := [], lastActive := now, messages := [] })

/-- `validate(code)`. -/
def validate (rooms : RoomsMap) (code : String) : Bool :=
  hasRoom rooms code

/-- The TTL server's connection handler (capacity literal `2`). -/
def handleConnection (rooms : RoomsMap) (ws : WS) (roomCode userId : String)
    (now : Int) : ConnResult :=
  handleConnectionWith 2 rooms ws roomCode userId now

/-- `ws.on("message")` of the TTL server: only well-formed `chat` frames
with a truthy `message` are handled; everything else (including a parse
error, modeled as `none`) is ignored. -/
def wsMessage (room : Room) (roomCode userId : String) (data : Option Payload)
    (now : Int) : Room × Sends :=
  match data with
  | none => (room, [])
  | some payload =>
    if payload.type == "chat" && truthy payload.message then
      let msg : LogMsg :=
        { type := "chat", code := roomCode, userId := userId
          message := payload.message, ts := now }
      ({ room with lastActive := now, messages := room.messages ++ [msg] },
       broadcastList room.clients (ServerMsg.log msg))
    else (room, [])

/-- `cleanup()`: delete every room with no clients whose `lastActive` is
more than `ttlMs` in the past. -/
def cleanup (rooms : RoomsMap) (now : Int) : RoomsMap :=
  rooms.filter (fun kv => !(kv.2.clients.length == 0 && ttlMs < now - kv.2.lastActive))

/-- The TTL server's upgrade-plus-connection pipeline. -/
def attemptJoin (rooms : RoomsMap) (pathname : String)
    (codeParam userIdParam : Option String) (randomId : String) (ws : WS)
    (now : Int) : ConnResult :=
  attemptJoinWith 2 rooms pathname codeParam userIdParam randomId ws now

end ServerTTL

namespace ServerFixed

/-- `createCode()` of the non-expiring server: always `"0000"`, creating
the room only when it does not exist yet. -/
def createCode (rooms : RoomsMap) (now : Int) : String × RoomsMap :=
  let code := "0000"
  if hasRoom rooms code then (code, rooms)
  else (code, setRoom rooms code { clients := [], lastActive := now, messages := [] })

/-- The non-expiring server's connection handler (capacity literal `10`). -/
def handleConnection (rooms : RoomsMap) (ws : WS) (roomCode userId : String)
    (now : Int) : ConnResult :=
  handleConnectionWith 10 rooms ws roomCode userId now

/-- `ws.on("message")` of the non-expiring server: `join` frames are
acknowledged as no-ops, `chat` and `image` frames with truthy payloads are
logged and broadcast, everything else is ignored. -/
def wsMessage (room : Room) (roomCode userId : String) (data : Option Payload)
    (now : Int) : Room × Sends :=
  match data with
  | none => (room, [])
  | some payload =>
    if payload.type == "join" then (room, [])
    else if payload.type == "chat" && truthy payload.message then
      let msg : LogMsg :=
        { type := "chat", code := roomCode, userId := userId
          message := payload.message, ts := now }
      ({ room with lastActive := now, messages := room.messages ++ [msg] },
       broadcastList room.clients (ServerMsg.log msg))
    else if payload.type == "image" && truthy payload.image then
      let msg : LogMsg :=
        { type := "image", code := roomCode, userId := userId
          image := payload.image, ts := now }
      ({ room with lastActive := now, messages := room.messages ++ [msg] },
       broadcastList room.clients (ServerMsg.log msg))
    else (room, [])

/-- The non-expiring server's upgrade-plus-connection pipeline. -/
def attemptJoin (rooms : RoomsMap) (pathname : String)
    (codeParam userIdParam : Option String) (randomId : String) (ws : WS)
    (now : Int) : ConnResult :=
  attemptJoinWith 10 rooms pathname codeParam userIdParam randomId ws now

end ServerFixed

namespace RoomService

/-- `const ttlMs = 10 * 60 * 1000` of `RoomService`. -/
def ttlMs : Int := 10 * 60 * 1000

/-- A WebSocket as seen by `RoomService`, including the ad hoc
`__roomCode` / `__userId` attributes `handleJoin` tags onto it. -/
structure RSWS where
  id : Nat
  readyState : Nat
  roomCode : Option String := none
  userId : Option String := none
deriving DecidableEq, Repr

/-- `RoomService`'s `Room` interface: note it has no message log. -/
structure RSRoom where
  code : String
  createdAt : Int
  lastActive : Int
  clients : List RSWS
  status : String
deriving DecidableEq, Repr

/-- `private rooms: Map<RoomCode, Room>`. -/
abbrev RSRooms := List (String × RSRoom)

/-- `private userRoom: Map<string, RoomCode>`; the key comes from a
payload field and may be `undefined`. -/
abbrev UserRooms := List (Option String × String)

/-- The whole mutable state of a `RoomService` instance. -/
structure State where
  rooms : RSRooms
  userRoom : UserRooms
deriving DecidableEq, Repr

def getUR (ur : UserRooms) (userId : Option String) : Option String :=
  (ur.find? (fun kv => kv.1 == userId)).map (fun kv => kv.2)

def setUR (ur : UserRooms) (userId : Option String) (code : String) : UserRooms :=
  if ur.any (fun kv => kv.1 == userId) then
    ur.map (fun kv => if kv.1 == userId then (kv.1, code) else kv)
  else
    ur ++ [(userId, code)]

def addR (clients : List RSWS) (ws : RSWS) : List RSWS :=
  if clients.any (fun c => c.id == ws.id) then clients else clients ++ [ws]

/-- The frames `RoomService` serializes.  Its `system` frame carries no
timestamp and its `chat` frame no room code; `userId` and `message` come
straight from the inbound payload and may be absent. -/
inductive RSMsg where
  | error (message : String)
  | joined (code : String)
  | system (message : String)
  | chat (userId : Option String) (message : Option String) (ts : Int)
deriving DecidableEq, Repr

/-- `private broadcast(room, payload)`. -/
def broadcastR (clients : List RSWS) (payload : RSMsg) : List (Nat × RSMsg) :=
  (clients.filter (fun c => c.readyState == OPEN)).map (fun c => (c.id, payload))

/-- Result of one inbound `RoomService` event: the new service state, the
(possibly meta-tagged) socket, and the ordered sends. -/
structure RSResult where
  state : State
  ws : RSWS
  sends : List (Nat × RSMsg)
deriving DecidableEq, Repr

/-- `createRoom()` (minus the lazy `start()`): the same re-roll loop as
the TTL server, inserting a fresh active room. -/
def createRoom : List (Fin 10000) → RSRooms → Int → Option (String × RSRooms)
  | [], _, _ => none
  | d :: rest, rooms, now =>
    let code := padCode d.val
    if hasRoom rooms code then createRoom rest rooms now
    else
      some (code,
        setRoom rooms code
          { code := code, createdAt := now, lastActive := now
            clients := [], status := "active" })

/-- `validateRoom(code)`. -/
def validateRoom (rooms : RSRooms) (code : String) : Bool :=
  match getRoom rooms code with
  | some room => room.status == "active"
  | none => false

/-- `private handleJoin(ws, payload)`. -/
def handleJoin (st : State) (ws : RSWS) (payload : Payload) (now : Int) : RSResult :=
  match payload.code with
  | none =>
    ⟨st, ws, [(ws.id, RSMsg.error "Room not found or inactive.")]⟩
  | some c =>
    match getRoom st.rooms c with
    | none =>
      ⟨st, ws, [(ws.id, RSMsg.error "Room not found or inactive.")]⟩
    | some room =>
      if room.status != "active" then
        ⟨st, ws, [(ws.id, RSMsg.error "Room not found or inactive.")]⟩
      else
        let existing := getUR st.userRoom payload.userId
        if (match existing with
            | some e => !(e == c)
            | none => false) then
          ⟨st, ws, [(ws.id, RSMsg.error "User already in another room.")]⟩
        else
          let ws1 : RSWS := { ws with roomCode := some c, userId := payload.userId }
          let room1 : RSRoom :=
            { room with clients := addR room.clients ws1, lastActive := now }
          ⟨⟨setRoom st.rooms c room1, setUR st.userRoom payload.userId c⟩, ws1,
            (ws.id, RSMsg.joined c)
              :: broadcastR room1.clients (RSMsg.system ("User joined room " ++ c))⟩

/-- `private handleChat(ws, payload)`. -/
def handleChat (st : State) (ws : RSWS) (payload : Payload) (now : Int) : RSResult :=
  match payload.code with
  | none =>
    ⟨st, ws, [(ws.id, RSMsg.error "Room not found or inactive.")]⟩
  | some c =>
    match getRoom st.rooms c with
    | none =>
      ⟨st, ws, [(ws.id, RSMsg.error "Room not found or inactive.")]⟩
    | some room =>
      if room.status != "active" then
        ⟨st, ws, [(ws.id, RSMsg.error "Room not found or inactive.")]⟩
      else if !(ws.roomCode == some c) then
        ⟨st, ws, [(ws.id, RSMsg.error "You are not in this room.")]⟩
      else
        let room1 : RSRoom := { room with lastActive := now }
        ⟨⟨setRoom st.rooms c room1, st.userRoom⟩, ws,
          broadcastR room1.clients (RSMsg.chat payload.userId payload.message now)⟩

/-- The `ws.on("message")` dispatcher installed by `handleConnection`. -/
def handleMessage (st : State) (ws : RSWS) (data : Option Payload) (now : Int) :
    RSResult :=
  match data with
  | none => ⟨st, ws, []⟩
  | some payload =>
    if payload.type == "join" then handleJoin st ws payload now
    else if payload.type == "chat" then handleChat st ws payload now
    else ⟨st, ws, []⟩

/-- `private cleanup()`: collect the stale codes, then delete each. -/
def cleanup (rooms : RSRooms) (now : Int) : RSRooms :=
  let stale :=
    (rooms.filter (fun kv => kv.2.clients.length == 0 && ttlMs < now - kv.2.lastActive)).map
      (fun kv => kv.1)
  stale.foldl (fun acc code => acc.filter (fun kv => !(kv.1 == code))) rooms

end RoomService

end RoomRelay

/-! ## The claims -/

open RoomRelay

/-- C10: In the non-expiring server variant, `createCode` is idempotent and
frame-preserving: it always returns the fixed code "0000", and when a room
with that code already exists in the registry the call leaves the registry
(and hence the existing room's clients, message log and `lastActive`)
completely unchanged; a repeated call never changes the registry again. -/
theorem C10_createCode_idempotent :
    ∀ (rooms : RoomsMap) (now now2 : Int),
      (ServerFixed.createCode rooms now).1 = "0000"
      ∧ (hasRoom rooms "0000" = true → (ServerFixed.createCode rooms now).2 = rooms)
      ∧ (∀ room, getRoom rooms "0000" = some room →
          getRoom (ServerFixed.createCode rooms now).2 "0000" = some room)
      ∧ (ServerFixed.createCode (ServerFixed.createCode rooms now).2 now2).2
          = (ServerFixed.createCode rooms now).2 := by
  intro rooms now now2
  have hres : ∀ (rs : RoomsMap) (t : Int), hasRoom rs "0000" = true →
      ServerFixed.createCode rs t = ("0000", rs) := by
    intro rs t h
    simp only [ServerFixed.createCode]
    rw [if_pos h]
  have hsnd : ∀ (rs : RoomsMap) (t : Int),
      hasRoom (ServerFixed.createCode rs t).2 "0000" = true := by
    intro rs t
    simp only [ServerFixed.createCode]
    split
    · next h => exact h
    · exact hasRoom_setRoom rs "0000" _
  refine ⟨?_, ?_, ?_, ?_⟩
  · simp only [ServerFixed.createCode]
    split <;> rfl
  · intro h
    rw [hres rooms now h]
  · intro room hroom
    rw [hres rooms now (hasRoom_of_getRoom rooms "0000" room hroom)]
    exact hroom
  · rw [hres _ now2 (hsnd rooms now)]

/-- C10 witness: the theorem applied at a concrete one-room registry. -/
theorem C10_createCode_idempotent_witness :
    (ServerFixed.createCode [("0000", { clients := [], lastActive := 3, messages := [] })] 9).2
      = [("0000", { clients := [], lastActive := 3, messages := [] })] :=
  (C10_createCode_idempotent
      [("0000", { clients := [], lastActive := 3, messages := [] })] 9 0).2.1 (by decide)

/-- C1: Every code returned by `createRoom` / `createCode` is a 4-digit
zero-padded numeric string and never collides with the code of another
currently active room: in the re-rolling variants (standalone TTL server
and `RoomService.createRoom`) the returned code was not in the registry
before the call, is mapped to the freshly inserted room afterwards, and
key-uniqueness of the registry is preserved; in the fixed-code variant the
returned "0000" is well-formed and registry keys stay unique, so no two
distinct active rooms ever share the returned code. -/
theorem C1_created_code_fresh_and_4digit :
    (∀ (draws : List (Fin 10000)) (rooms : RoomsMap) (now : Int)
        (code : String) (rooms2 : RoomsMap),
        ServerTTL.createCode draws rooms now = some (code, rooms2) →
        code.length = 4 ∧ code.data.all Char.isDigit = true
        ∧ hasRoom rooms code = false
        ∧ getRoom rooms2 code = some { clients := [], lastActive := now, messages := [] }
        ∧ ((rooms.map Prod.fst).Nodup → (rooms2.map Prod.fst).Nodup))
    ∧ (∀ (draws : List (Fin 10000)) (rooms : RoomService.RSRooms) (now : Int)
        (code : String) (rooms2 : RoomService.RSRooms),
        RoomService.createRoom draws rooms now = some (code, rooms2) →
        code.length = 4 ∧ code.data.all Char.isDigit = true
        ∧ hasRoom rooms code = false
        ∧ getRoom rooms2 code = some { code := code, createdAt := now, lastActive := now,
                                        clients := [], status := "active" }
        ∧ ((rooms.map Prod.fst).Nodup → (rooms2.map Prod.fst).Nodup))
    ∧ (∀ (rooms : RoomsMap) (now : Int),
        (ServerFixed.createCode rooms now).1 = "0000"
        ∧ ("0000" : String).length = 4
        ∧ ("0000" : String).data.all Char.isDigit = true
        ∧ hasRoom (ServerFixed.createCode rooms now).2 "0000" = true
        ∧ ((rooms.map Prod.fst).Nodup →
            (((ServerFixed.createCode rooms now).2).map Prod.fst).Nodup)) := by
  refine ⟨?_, ?_, ?_⟩
  · intro draws
    induction draws with
    | nil => intro rooms now code rooms2 h; cases h
    | cons d rest ih =>
      intro rooms now code rooms2 h
      simp only [ServerTTL.createCode] at h
      split at h
      · exact ih rooms now code rooms2 h
      · next hfresh =>
        rcases Option.some_inj.mp h with ⟨rfl, rfl⟩
        have hspec := padCode_spec d.val d.isLt
        have hfr : hasRoom rooms (padCode d.val) = false := by
          rw [Bool.not_eq_true] at hfresh
          exact hfresh
        exact ⟨hspec.1, hspec.2, hfr, getRoom_setRoom rooms _ _,
          fun hnd => nodup_setRoom_new rooms _ _ hfr hnd⟩
  · intro draws
    induction draws with
    | nil => intro rooms now code rooms2 h; cases h
    | cons d rest ih =>
      intro rooms now code rooms2 h
      simp only [RoomService.createRoom] at h
      split at h
      · exact ih rooms now code rooms2 h
      · next hfresh =>
        rcases Option.some_inj.mp h with ⟨rfl, rfl⟩
        have hspec := padCode_spec d.val d.isLt
        have hfr : hasRoom rooms (padCode d.val) = false := by
          rw [Bool.not_eq_true] at hfresh
          exact hfresh
        exact ⟨hspec.1, hspec.2, hfr, getRoom_setRoom rooms _ _,
          fun hnd => nodup_setRoom_new rooms _ _ hfr hnd⟩
  · intro rooms now
    refine ⟨?_, rfl, by decide, ?_, ?_⟩
    · simp only [ServerFixed.createCode]
      split <;> rfl
    · simp only [ServerFixed.createCode]
      split
      · next h => exact h
      · exact hasRoom_setRoom rooms "0000" _
    · intro hnd
      simp only [ServerFixed.createCode]
      split
      · exact hnd
      · next h =>
        have hfr : hasRoom rooms "0000" = false := by
          rw [Bool.not_eq_true] at h
          exact h
        exact nodup_setRoom_new rooms _ _ hfr hnd

/-- C1 witness: a concrete draw in an empty registry yields the padded,
fresh code "0007". -/
theorem C1_created_code_fresh_and_4digit_witness :
    ServerTTL.createCode [(7 : Fin 10000)] [] 0
        = some ("0007", [("0007", { clients := [], lastActive := 0, messages := [] })])
    ∧ ("0007" : String).length = 4 ∧ ("0007" : String).data.all Char.isDigit = true
    ∧ hasRoom ([] : RoomsMap) "0007" = false :=
  have happ := C1_created_code_fresh_and_4digit.1 [(7 : Fin 10000)] [] 0 "0007"
    [("0007", { clients := [], lastActive := 0, messages := [] })] (by decide)
  ⟨by decide, happ.1, happ.2.1, happ.2.2.1⟩

/-- The delete loop of `RoomService.cleanup` is the filter that drops all
collected stale keys. -/
theorem foldl_delete_eq_filter {B : Type} (stale : List String)
    (l : List (String × B)) :
    stale.foldl (fun acc code => acc.filter (fun kv => !(kv.1 == code))) l
      = l.filter (fun kv => !(stale.contains kv.1)) := by
  induction stale generalizing l with
  | nil => simp
  | cons c cs ih =>
    rw [List.foldl_cons, ih, List.filter_filter]
    congr 1
    funext kv
    simp only [List.contains_cons, Bool.not_or]
    rw [Bool.and_comm]

/-- C2: the cleanup sweep (of the TTL server and of `RoomService`) removes
every room with no clients whose `lastActive` is more than the TTL in the
past, and never removes a room that still has a connected client. -/
theorem C2_cleanup_sweep :
    (∀ (rooms : RoomsMap) (now : Int) (kv : String × Room),
        kv ∈ ServerTTL.cleanup rooms now →
        ¬(kv.2.clients = [] ∧ ServerTTL.ttlMs < now - kv.2.lastActive))
    ∧ (∀ (rooms : RoomsMap) (now : Int) (code : String) (room : Room),
        getRoom rooms code = some room → room.clients ≠ [] →
        getRoom (ServerTTL.cleanup rooms now) code = some room)
    ∧ (∀ (rooms : RoomService.RSRooms) (now : Int) (kv : String × RoomService.RSRoom),
        kv ∈ RoomService.cleanup rooms now →
        ¬(kv.2.clients = [] ∧ RoomService.ttlMs < now - kv.2.lastActive))
    ∧ (∀ (rooms : RoomService.RSRooms) (now : Int) (code : String)
        (room : RoomService.RSRoom),
        (rooms.map Prod.fst).Nodup →
        getRoom rooms code = some room → room.clients ≠ [] →
        getRoom (RoomService.cleanup rooms now) code = some room) := by
  refine ⟨?_, ?_, ?_, ?_⟩
  · intro rooms now kv hkv hbad
    obtain ⟨hcl, hlt⟩ := hbad
    have hp := (List.mem_filter.mp hkv).2
    simp only [hcl, List.length_nil, hlt] at hp
    simp at hp
  · intro rooms now code room hget hcl
    unfold getRoom at hget
    cases hfind : rooms.find? (fun kv => kv.1 == code) with
    | none => rw [hfind] at hget; cases hget
    | some kv0 =>
      rw [hfind] at hget
      have hkv2 : kv0.2 = room := by simpa using hget
      have hkeep : (fun kv : String × Room =>
          !(kv.2.clients.length == 0 && decide (ServerTTL.ttlMs < now - kv.2.lastActive))) kv0
            = true := by
        have : kv0.2.clients.length ≠ 0 := by
          rw [hkv2]
          simpa using fun h => hcl (List.length_eq_zero.mp h)
        simp [this]
      unfold ServerTTL.cleanup getRoom
      rw [find?_filter rooms _ _ kv0 hfind hkeep]
      simp [hkv2]
  · intro rooms now kv hkv hbad
    obtain ⟨hcl, hlt⟩ := hbad
    unfold RoomService.cleanup at hkv
    rw [foldl_delete_eq_filter] at hkv
    obtain ⟨hmem, hp⟩ := List.mem_filter.mp hkv
    have hstale : kv.1 ∈ (rooms.filter (fun kv : String × RoomService.RSRoom =>
        kv.2.clients.length == 0
          && decide (RoomService.ttlMs < now - kv.2.lastActive))).map
        (fun kv => kv.1) := by
      refine List.mem_map.mpr ⟨kv, List.mem_filter.mpr ⟨hmem, ?_⟩, rfl⟩
      simp [hcl, hlt]
    have hcont : (List.contains ((rooms.filter (fun kv : String × RoomService.RSRoom =>
        kv.2.clients.length == 0
          && decide (RoomService.ttlMs < now - kv.2.lastActive))).map
        (fun kv => kv.1)) kv.1) = true :=
      List.elem_eq_true_of_mem hstale
    rw [hcont] at hp
    simp at hp
  · intro rooms now code room hnd hget hcl
    unfold getRoom at hget
    cases hfind : rooms.find? (fun kv => kv.1 == code) with
    | none => rw [hfind] at hget; cases hget
    | some kv0 =>
      rw [hfind] at hget
      have hkv2 : kv0.2 = room := by simpa using hget
      have hmem0 : kv0 ∈ rooms := List.mem_of_find?_eq_some hfind
      have hkeep : (fun kv : String × RoomService.RSRoom =>
          !(((rooms.filter (fun kv => kv.2.clients.length == 0
                && decide (RoomService.ttlMs < now - kv.2.lastActive))).map
              (fun kv => kv.1)).contains kv.1)) kv0 = true := by
        cases hcont : (List.contains ((rooms.filter
            (fun kv : String × RoomService.RSRoom => kv.2.clients.length == 0
              && decide (RoomService.ttlMs < now - kv.2.lastActive))).map
            (fun kv => kv.1)) kv0.1) with
        | false => simp only [hcont, Bool.not_false]
        | true =>
          exfalso
          have hmem1 : kv0.1 ∈ (rooms.filter
              (fun kv : String × RoomService.RSRoom => kv.2.clients.length == 0
                && decide (RoomService.ttlMs < now - kv.2.lastActive))).map
              (fun kv => kv.1) := List.elem_iff.mp hcont
          obtain ⟨kv1, hkv1, hkey⟩ := List.mem_map.mp hmem1
          obtain ⟨hkv1mem, hpred⟩ := List.mem_filter.mp hkv1
          have heq : kv1 = kv0 :=
            List.inj_on_of_nodup_map hnd hkv1mem hmem0 hkey
          rw [heq, hkv2] at hpred
          simp only [Bool.and_eq_true, beq_iff_eq] at hpred
          exact hcl (List.length_eq_zero.mp hpred.1)
      unfold RoomService.cleanup
      rw [foldl_delete_eq_filter]
      unfold getRoom
      rw [find?_filter rooms _ _ kv0 hfind hkeep]
      simp [hkv2]

/-- C2 witness: a room that still has a client survives a sweep far past
the TTL. -/
theorem C2_cleanup_sweep_witness :
    getRoom
        (ServerTTL.cleanup
          [("1234", { clients := [{ id := 1, readyState := OPEN }],
                      lastActive := 0, messages := [] })] 100000000)
        "1234"
      = some { clients := [{ id := 1, readyState := OPEN }],
               lastActive := 0, messages := [] } :=
  C2_cleanup_sweep.2.1
    [("1234", { clients := [{ id := 1, readyState := OPEN }],
                lastActive := 0, messages := [] })]
    100000000 "1234" _ (by decide) (by decide)

/-- The success branch of the shared join sequence, fully computed. -/
theorem handleConnection_success (limit : Nat) (rooms : RoomsMap) (ws : WS)
    (roomCode userId : String) (now : Int) (room : Room)
    (hget : getRoom rooms roomCode = some room)
    (hcap : room.clients.length < limit) :
    handleConnectionWith limit rooms ws roomCode userId now =
      { rooms := setRoom rooms roomCode
          { room with clients := addClient room.clients ws, lastActive := now }
        sends := (ws.id, ServerMsg.joined roomCode)
          :: ((if room.messages.length == 0 then []
               else [(ws.id, ServerMsg.history room.messages)])
              ++ broadcastList (addClient room.clients ws)
                  (ServerMsg.system ("User " ++ userId.take 4 ++ " joined") now))
        closed := [] } := by
  simp only [handleConnectionWith, hget]
  rw [if_neg (Nat.not_le.mpr hcap)]

/-- C3: on every successful join the new connection first receives
`joined` with its room code, then exactly when the room log is non-empty
a single `history` frame with the full log, and it is itself among the
recipients of the subsequent `system` join broadcast. -/
theorem C3_join_message_order :
    ∀ (limit : Nat) (rooms : RoomsMap) (ws : WS) (roomCode userId : String)
      (now : Int) (room : Room),
      getRoom rooms roomCode = some room →
      room.clients.length < limit →
      ws.readyState = OPEN →
      (∀ c ∈ room.clients, c.id ≠ ws.id) →
      ∃ bs : Sends,
        (handleConnectionWith limit rooms ws roomCode userId now).sends
          = (ws.id, ServerMsg.joined roomCode)
            :: ((if room.messages = [] then []
                 else [(ws.id, ServerMsg.history room.messages)]) ++ bs)
        ∧ (ws.id, ServerMsg.system ("User " ++ userId.take 4 ++ " joined") now) ∈ bs := by
  intro limit rooms ws roomCode userId now room hget hcap hopen hfresh
  refine ⟨broadcastList (addClient room.clients ws)
      (ServerMsg.system ("User " ++ userId.take 4 ++ " joined") now), ?_, ?_⟩
  · rw [handleConnection_success limit rooms ws roomCode userId now room hget hcap]
    have hiff : (if (room.messages.length == 0) = true then ([] : Sends)
        else [(ws.id, ServerMsg.history room.messages)])
      = (if room.messages = [] then ([] : Sends)
        else [(ws.id, ServerMsg.history room.messages)]) := by
      by_cases hm : room.messages = []
      · rw [if_pos hm, if_pos]
        simp [hm]
      · rw [if_neg hm, if_neg]
        simp only [beq_iff_eq, List.length_eq_zero]
        exact hm
    simp only [hiff]
  · refine mem_broadcastList _ _ ws ?_ hopen
    rw [addClient_fresh room.clients ws hfresh]
    exact List.mem_append_right _ (List.mem_singleton.mpr rfl)

/-- C3 witness: a fresh socket joining an empty room of the TTL server. -/
theorem C3_join_message_order_witness :
    ∃ bs : Sends,
      (handleConnectionWith 2 [("0000", { clients := [], lastActive := 5, messages := [] })]
          { id := 1, readyState := OPEN } "0000" "alice" 9).sends
        = (1, ServerMsg.joined "0000")
            :: ((if ([] : List LogMsg) = [] then ([] : Sends)
                else [(1, ServerMsg.history ([] : List LogMsg))]) ++ bs)
      ∧ (1, ServerMsg.system ("User " ++ ("alice" : String).take 4 ++ " joined") 9) ∈ bs :=
  C3_join_message_order 2 [("0000", { clients := [], lastActive := 5, messages := [] })]
    { id := 1, readyState := OPEN } "0000" "alice" 9
    { clients := [], lastActive := 5, messages := [] }
    (by decide) (by decide) (by decide) (by decide)

/-- C4: a joiner hitting a room whose client set has reached the capacity
limit receives `error` "Room is full" and is closed, with the registry
(hence the room's client set) left unchanged; a joiner arriving when the
set has `limit - 1` members succeeds, is not closed, gets `joined` first,
and ends up in the room's client set. -/
theorem C4_capacity_limit :
    ∀ (limit : Nat) (rooms : RoomsMap) (ws : WS) (roomCode userId : String)
      (now : Int) (room : Room),
      getRoom rooms roomCode = some room →
      ((limit ≤ room.clients.length →
          handleConnectionWith limit rooms ws roomCode userId now
            = { rooms := rooms
                sends := [(ws.id, ServerMsg.error "Room is full")]
                closed := [ws.id] })
       ∧ (room.clients.length + 1 = limit →
          (handleConnectionWith limit rooms ws roomCode userId now).closed = []
          ∧ (handleConnectionWith limit rooms ws roomCode userId now).sends.head?
              = some (ws.id, ServerMsg.joined roomCode)
          ∧ ∃ room2 : Room,
              getRoom (handleConnectionWith limit rooms ws roomCode userId now).rooms
                  roomCode = some room2
              ∧ ∃ c ∈ room2.clients, c.id = ws.id)) := by
  intro limit rooms ws roomCode userId now room hget
  constructor
  · intro hfull
    simp only [handleConnectionWith, hget]
    rw [if_pos hfull]
  · intro hnth
    have hcap : room.clients.length < limit := by omega
    rw [handleConnection_success limit rooms ws roomCode userId now room hget hcap]
    refine ⟨rfl, rfl, ?_⟩
    refine ⟨{ room with clients := addClient room.clients ws, lastActive := now },
      getRoom_setRoom rooms roomCode _, ?_⟩
    exact addClient_mem room.clients ws

/-- C4 witness: in the TTL server (capacity 2), the second joiner enters a
one-member room. -/
theorem C4_capacity_limit_witness :
    (handleConnectionWith 2
        [("0000", { clients := [{ id := 1, readyState := OPEN }],
                    lastActive := 0, messages := [] })]
        { id := 2, readyState := OPEN } "0000" "bob" 4).closed = []
    ∧ (handleConnectionWith 2
        [("0000", { clients := [{ id := 1, readyState := OPEN }],
                    lastActive := 0, messages := [] })]
        { id := 2, readyState := OPEN } "0000" "bob" 4).sends.head?
        = some (2, ServerMsg.joined "0000")
    ∧ ∃ room2 : Room,
        getRoom (handleConnectionWith 2
            [("0000", { clients := [{ id := 1, readyState := OPEN }],
                        lastActive := 0, messages := [] })]
            { id := 2, readyState := OPEN } "0000" "bob" 4).rooms "0000"
          = some room2
        ∧ ∃ c ∈ room2.clients, c.id = 2 :=
  (C4_capacity_limit 2
      [("0000", { clients := [{ id := 1, readyState := OPEN }],
                  lastActive := 0, messages := [] })]
      { id := 2, readyState := OPEN } "0000" "bob" 4
      { clients := [{ id := 1, readyState := OPEN }],
        lastActive := 0, messages := [] }
      (by decide)).2 (by decide)

theorem mem_broadcastR (clients : List RoomService.RSWS)
    (payload : RoomService.RSMsg) (c : RoomService.RSWS)
    (hc : c ∈ clients) (hopen : c.readyState = OPEN) :
    (c.id, payload) ∈ RoomService.broadcastR clients payload := by
  unfold RoomService.broadcastR
  exact List.mem_map.mpr ⟨c, List.mem_filter.mpr ⟨hc, by simp [hopen]⟩, rfl⟩

/-- C5 counterexample: in the Electron `RoomService` a `chat` frame with
a non-empty `message` from a joined member of an active room is NOT
handled as the claim states: the broadcast frame is the code-less
`RSMsg.chat` built from the inbound payload's own `userId`/`message` —
not the claimed `{type: chat, code, userId, message, ts}` record — and
the complete post-state shows only `lastActive` changed, there being no
room message log to append the record to. -/
theorem C5_chat_counterexample :
    (RoomService.handleMessage
        { rooms := [("1234", { code := "1234", createdAt := 0, lastActive := 0,
                               clients := [{ id := 1, readyState := OPEN,
                                             roomCode := some "1234",
                                             userId := some "u1" }],
                               status := "active" })],
          userRoom := [(some "u1", "1234")] }
        { id := 1, readyState := OPEN, roomCode := some "1234", userId := some "u1" }
        (some { type := "chat", code := some "1234", userId := some "u1",
                message := some "hi" }) 7).sends
      = [(1, RoomService.RSMsg.chat (some "u1") (some "hi") 7)]
    ∧ (RoomService.handleMessage
        { rooms := [("1234", { code := "1234", createdAt := 0, lastActive := 0,
                               clients := [{ id := 1, readyState := OPEN,
                                             roomCode := some "1234",
                                             userId := some "u1" }],
                               status := "active" })],
          userRoom := [(some "u1", "1234")] }
        { id := 1, readyState := OPEN, roomCode := some "1234", userId := some "u1" }
        (some { type := "chat", code := some "1234", userId := some "u1",
                message := some "hi" }) 7).state
      = { rooms := [("1234", { code := "1234", createdAt := 0, lastActive := 7,
                               clients := [{ id := 1, readyState := OPEN,
                                             roomCode := some "1234",
                                             userId := some "u1" }],
                               status := "active" })],
          userRoom := [(some "u1", "1234")] } := by
  refine ⟨by decide, by decide⟩

/-- C5 (amended): an inbound `chat` frame with a truthy `message` from a
joined connection is handled as the claim states in both standalone
server variants — `lastActive` updated, the record
`{type: chat, code, userId, message, ts: now}` (with the handshake-bound
code and identity) appended to the room log, and exactly that record
broadcast to the room's open clients, the sender included; the Electron
`RoomService` instead only updates `lastActive` (its rooms keep no
message log, so nothing is appended) and broadcasts the code-less frame
`{type: chat, userId, message, ts}` built from the inbound payload. -/
theorem C5_chat_broadcast :
    (∀ (room : Room) (roomCode userId : String) (payload : Payload) (now : Int)
      (sender : WS) (entry : LogMsg),
      payload.type = "chat" →
      truthy payload.message = true →
      sender ∈ room.clients →
      sender.readyState = OPEN →
      entry = { type := "chat", code := roomCode, userId := userId,
                message := payload.message, ts := now } →
      (ServerTTL.wsMessage room roomCode userId (some payload) now
          = ({ room with lastActive := now, messages := room.messages ++ [entry] },
             broadcastList room.clients (ServerMsg.log entry)))
      ∧ (ServerFixed.wsMessage room roomCode userId (some payload) now
          = ({ room with lastActive := now, messages := room.messages ++ [entry] },
             broadcastList room.clients (ServerMsg.log entry)))
      ∧ (sender.id, ServerMsg.log entry) ∈ broadcastList room.clients (ServerMsg.log entry)
      ∧ (∀ c ∈ room.clients, c.readyState = OPEN →
          (c.id, ServerMsg.log entry) ∈ broadcastList room.clients (ServerMsg.log entry)))
    ∧ (∀ (st : RoomService.State) (ws : RoomService.RSWS) (payload : Payload)
        (now : Int) (c : String) (room : RoomService.RSRoom),
        payload.type = "chat" →
        truthy payload.message = true →
        payload.code = some c →
        getRoom st.rooms c = some room →
        room.status = "active" →
        ws.roomCode = some c →
        RoomService.handleMessage st ws (some payload) now
          = ⟨⟨setRoom st.rooms c { room with lastActive := now }, st.userRoom⟩, ws,
             RoomService.broadcastR room.clients
               (RoomService.RSMsg.chat payload.userId payload.message now)⟩
        ∧ (ws ∈ room.clients → ws.readyState = OPEN →
            (ws.id, RoomService.RSMsg.chat payload.userId payload.message now)
              ∈ (RoomService.handleMessage st ws (some payload) now).sends)) := by
  constructor
  · intro room roomCode userId payload now sender entry htype hmsg hsender hopen hentry
    have hc : (payload.type == "chat") = true := by simp [htype]
    have hj : (payload.type == "join") = false := by simp [htype]
    subst hentry
    refine ⟨?_, ?_, ?_, ?_⟩
    · simp only [ServerTTL.wsMessage, hc, hmsg, Bool.and_self, if_true]
    · simp only [ServerFixed.wsMessage, hj, Bool.false_eq_true, if_false,
        hc, hmsg, Bool.and_self, if_true]
    · exact mem_broadcastList room.clients _ sender hsender hopen
    · intro c hcmem hcopen
      exact mem_broadcastList room.clients _ c hcmem hcopen
  · intro st ws payload now c room htype hmsg hcode hget hstatus hws
    have hres : RoomService.handleMessage st ws (some payload) now
        = ⟨⟨setRoom st.rooms c { room with lastActive := now }, st.userRoom⟩, ws,
           RoomService.broadcastR room.clients
             (RoomService.RSMsg.chat payload.userId payload.message now)⟩ := by
      have hj : (payload.type == "join") = false := by simp [htype]
      have hc : (payload.type == "chat") = true := by simp [htype]
      simp only [RoomService.handleMessage, hj, hc, Bool.false_eq_true, if_false, if_true]
      simp only [RoomService.handleChat, hcode, hget]
      have hst : (room.status != "active") = false := by simp [hstatus]
      have hwc : (ws.roomCode == some c) = true := by simp [hws]
      simp only [hst, hwc, Bool.not_true, Bool.false_eq_true, if_false]
    refine ⟨hres, ?_⟩
    intro hmem hopen
    rw [hres]
    exact mem_broadcastR room.clients _ ws hmem hopen

/-- C5 witness: a concrete chat frame echoed to both members of a
two-member room. -/
theorem C5_chat_broadcast_witness :
    ServerTTL.wsMessage
        { clients := [{ id := 1, readyState := OPEN }, { id := 2, readyState := OPEN }],
          lastActive := 0, messages := [] }
        "0000" "u1" (some { type := "chat", message := some "hi" }) 7
      = ({ clients := [{ id := 1, readyState := OPEN }, { id := 2, readyState := OPEN }],
           lastActive := 7,
           messages := [{ type := "chat", code := "0000", userId := "u1",
                          message := some "hi", ts := 7 }] },
         broadcastList
           [{ id := 1, readyState := OPEN }, { id := 2, readyState := OPEN }]
           (ServerMsg.log { type := "chat", code := "0000", userId := "u1",
                            message := some "hi", ts := 7 }))
    ∧ (1, ServerMsg.log { type := "chat", code := "0000", userId := "u1",
                          message := some "hi", ts := 7 })
        ∈ broadcastList
            [{ id := 1, readyState := OPEN }, { id := 2, readyState := OPEN }]
            (ServerMsg.log { type := "chat", code := "0000", userId := "u1",
                             message := some "hi", ts := 7 }) :=
  have happ := C5_chat_broadcast.1
    { clients := [{ id := 1, readyState := OPEN }, { id := 2, readyState := OPEN }],
      lastActive := 0, messages := [] }
    "0000" "u1" { type := "chat", message := some "hi" } 7
    { id := 1, readyState := OPEN } _
    (by decide) (by decide) (by decide) (by decide) rfl
  ⟨by
      have h := happ.1
      simpa using h,
    happ.2.2.1⟩

/-- C6 counterexample: in the TTL standalone server an inbound `image`
frame with a non-empty payload from a joined open connection is silently
dropped — `lastActive` is not updated, nothing is appended to the log and
nothing is broadcast — contradicting the claim that every server variant
handles `image` like `chat`. -/
theorem C6_image_counterexample :
    ServerTTL.wsMessage
        { clients := [{ id := 1, readyState := OPEN }], lastActive := 0, messages := [] }
        "0000" "u1"
        (some { type := "image", image := some "data:image/png;base64,AAAA" }) 5
      = ({ clients := [{ id := 1, readyState := OPEN }], lastActive := 0, messages := [] },
         [])
    ∧ (ServerTTL.wsMessage
        { clients := [{ id := 1, readyState := OPEN }], lastActive := 0, messages := [] }
        "0000" "u1"
        (some { type := "image", image := some "data:image/png;base64,AAAA" }) 5).1.lastActive
      ≠ 5 := by
  refine ⟨by decide, by decide⟩

/-- C6 (amended): only the non-expiring server variant handles an inbound
`image` frame with a truthy `image` payload like a chat frame — updating
`lastActive`, appending `{type: image, code, userId, image, ts: now}` to
the log and broadcasting that record to the room's open clients including
the sender; the TTL variant silently drops every `image` frame. -/
theorem C6_image_handling :
    (∀ (room : Room) (roomCode userId : String) (payload : Payload) (now : Int)
        (sender : WS) (entry : LogMsg),
        payload.type = "image" →
        truthy payload.image = true →
        sender ∈ room.clients →
        sender.readyState = OPEN →
        entry = { type := "image", code := roomCode, userId := userId,
                  image := payload.image, ts := now } →
        ServerFixed.wsMessage room roomCode userId (some payload) now
          = ({ room with lastActive := now, messages := room.messages ++ [entry] },
             broadcastList room.clients (ServerMsg.log entry))
        ∧ (sender.id, ServerMsg.log entry) ∈ broadcastList room.clients (ServerMsg.log entry)
        ∧ (∀ c ∈ room.clients, c.readyState = OPEN →
            (c.id, ServerMsg.log entry) ∈ broadcastList room.clients (ServerMsg.log entry)))
    ∧ (∀ (room : Room) (roomCode userId : String) (payload : Payload) (now : Int),
        payload.type = "image" →
        ServerTTL.wsMessage room roomCode userId (some payload) now = (room, [])) := by
  constructor
  · intro room roomCode userId payload now sender entry htype himg hsender hopen hentry
    have hj : (payload.type == "join") = false := by simp [htype]
    have hc : (payload.type == "chat") = false := by simp [htype]
    have hi : (payload.type == "image") = true := by simp [htype]
    subst hentry
    refine ⟨?_, ?_, ?_⟩
    · simp only [ServerFixed.wsMessage, hj, hc, hi, himg, Bool.false_eq_true, if_false,
        Bool.false_and, Bool.and_self, if_true]
    · exact mem_broadcastList room.clients _ sender hsender hopen
    · intro c hcmem hcopen
      exact mem_broadcastList room.clients _ c hcmem hcopen
  · intro room roomCode userId payload now htype
    have hc : (payload.type == "chat") = false := by simp [htype]
    simp only [ServerTTL.wsMessage, hc, Bool.false_and, Bool.false_eq_true, if_false]

/-- C6 witness: a concrete image frame relayed by the non-expiring server. -/
theorem C6_image_handling_witness :
    ServerFixed.wsMessage
        { clients := [{ id := 1, readyState := OPEN }], lastActive := 0, messages := [] }
        "0000" "u1" (some { type := "image", image := some "AAAA" }) 5
      = ({ clients := [{ id := 1, readyState := OPEN }], lastActive := 5,
           messages := [{ type := "image", code := "0000", userId := "u1",
                          image := some "AAAA", ts := 5 }] },
         broadcastList [{ id := 1, readyState := OPEN }]
           (ServerMsg.log { type := "image", code := "0000", userId := "u1",
                            image := some "AAAA", ts := 5 })) :=
  have happ := C6_image_handling.1
    { clients := [{ id := 1, readyState := OPEN }], lastActive := 0, messages := [] }
    "0000" "u1" { type := "image", image := some "AAAA" } 5
    { id := 1, readyState := OPEN } _
    (by decide) (by decide) (by decide) (by decide) rfl
  by simpa using happ.1

/-- C7 counterexample: in the Electron `RoomService` a `chat` frame whose
`message` is the empty string — malformed per the claim — sent by a
joined member of an active room IS broadcast (and mutates the room's
`lastActive`), contradicting "no broadcast and no mutation of any room
state". -/
theorem C7_malformed_counterexample :
    (RoomService.handleMessage
        { rooms := [("1234", { code := "1234", createdAt := 0, lastActive := 0,
                               clients := [{ id := 1, readyState := OPEN,
                                             roomCode := some "1234",
                                             userId := some "u1" }],
                               status := "active" })],
          userRoom := [(some "u1", "1234")] }
        { id := 1, readyState := OPEN, roomCode := some "1234", userId := some "u1" }
        (some { type := "chat", code := some "1234", userId := some "u1",
                message := some "" }) 7).sends
      = [(1, RoomService.RSMsg.chat (some "u1") (some "") 7)]
    ∧ (RoomService.handleMessage
        { rooms := [("1234", { code := "1234", createdAt := 0, lastActive := 0,
                               clients := [{ id := 1, readyState := OPEN,
                                             roomCode := some "1234",
                                             userId := some "u1" }],
                               status := "active" })],
          userRoom := [(some "u1", "1234")] }
        { id := 1, readyState := OPEN, roomCode := some "1234", userId := some "u1" }
        (some { type := "chat", code := some "1234", userId := some "u1",
                message := some "" }) 7).state
      ≠ { rooms := [("1234", { code := "1234", createdAt := 0, lastActive := 0,
                               clients := [{ id := 1, readyState := OPEN,
                                             roomCode := some "1234",
                                             userId := some "u1" }],
                               status := "active" })],
          userRoom := [(some "u1", "1234")] } := by
  refine ⟨by decide, by decide⟩

/-- C7 (amended): malformed frames — an unparseable frame, an unknown
type, or a `chat` frame with an empty/missing `message` — produce no
sends and no state change in both standalone servers, and unparseable or
unknown-type frames produce nothing in `RoomService` as well; but in
`RoomService` a `chat` frame from a joined member of an active room is
broadcast (and `lastActive` is updated) even when its `message` is empty
or missing. -/
theorem C7_malformed_frames :
    (∀ (room : Room) (roomCode userId : String) (now : Int),
        ServerTTL.wsMessage room roomCode userId none now = (room, []))
    ∧ (∀ (room : Room) (roomCode userId : String) (payload : Payload) (now : Int),
        ¬(payload.type = "chat" ∧ truthy payload.message = true) →
        ServerTTL.wsMessage room roomCode userId (some payload) now = (room, []))
    ∧ (∀ (room : Room) (roomCode userId : String) (now : Int),
        ServerFixed.wsMessage room roomCode userId none now = (room, []))
    ∧ (∀ (room : Room) (roomCode userId : String) (payload : Payload) (now : Int),
        payload.type ≠ "join" →
        ¬(payload.type = "chat" ∧ truthy payload.message = true) →
        ¬(payload.type = "image" ∧ truthy payload.image = true) →
        ServerFixed.wsMessage room roomCode userId (some payload) now = (room, []))
    ∧ (∀ (st : RoomService.State) (ws : RoomService.RSWS) (now : Int),
        RoomService.handleMessage st ws none now = ⟨st, ws, []⟩)
    ∧ (∀ (st : RoomService.State) (ws : RoomService.RSWS) (payload : Payload)
        (now : Int),
        payload.type ≠ "join" → payload.type ≠ "chat" →
        RoomService.handleMessage st ws (some payload) now = ⟨st, ws, []⟩)
    ∧ (∀ (st : RoomService.State) (ws : RoomService.RSWS) (payload : Payload)
        (now : Int) (c : String) (room : RoomService.RSRoom),
        payload.type = "chat" → payload.code = some c →
        getRoom st.rooms c = some room → room.status = "active" →
        ws.roomCode = some c →
        (RoomService.handleMessage st ws (some payload) now).sends
          = RoomService.broadcastR room.clients
              (RoomService.RSMsg.chat payload.userId payload.message now)
        ∧ (ws ∈ room.clients → ws.readyState = OPEN →
            (RoomService.handleMessage st ws (some payload) now).sends ≠ [])) := by
  refine ⟨?_, ?_, ?_, ?_, ?_, ?_, ?_⟩
  · intro room roomCode userId now
    rfl
  · intro room roomCode userId payload now hmal
    have hcond : (payload.type == "chat" && truthy payload.message) = false := by
      by_cases ht : payload.type = "chat"
      · have hm : truthy payload.message = false := by
          cases h : truthy payload.message with
          | false => rfl
          | true => exact absurd ⟨ht, h⟩ hmal
        simp [hm]
      · simp [beq_eq_false_iff_ne.mpr ht]
    simp only [ServerTTL.wsMessage, hcond, Bool.false_eq_true, if_false]
  · intro room roomCode userId now
    rfl
  · intro room roomCode userId payload now hjoin hchat himage
    have hj : (payload.type == "join") = false := beq_eq_false_iff_ne.mpr hjoin
    have hcond : (payload.type == "chat" && truthy payload.message) = false := by
      by_cases ht : payload.type = "chat"
      · have hm : truthy payload.message = false := by
          cases h : truthy payload.message with
          | false => rfl
          | true => exact absurd ⟨ht, h⟩ hchat
        simp [hm]
      · simp [beq_eq_false_iff_ne.mpr ht]
    have hcond2 : (payload.type == "image" && truthy payload.image) = false := by
      by_cases ht : payload.type = "image"
      · have hm : truthy payload.image = false := by
          cases h : truthy payload.image with
          | false => rfl
          | true => exact absurd ⟨ht, h⟩ himage
        simp [hm]
      · simp [beq_eq_false_iff_ne.mpr ht]
    simp only [ServerFixed.wsMessage, hj, hcond, hcond2, Bool.false_eq_true, if_false]
  · intro st ws now
    rfl
  · intro st ws payload now hjoin hchat
    have hj : (payload.type == "join") = false := beq_eq_false_iff_ne.mpr hjoin
    have hc : (payload.type == "chat") = false := beq_eq_false_iff_ne.mpr hchat
    simp only [RoomService.handleMessage, hj, hc, Bool.false_eq_true, if_false]
  · intro st ws payload now c room htype hcode hget hstatus hws
    have hc : (payload.type == "chat") = true := by simp [htype]
    have hsends : (RoomService.handleMessage st ws (some payload) now).sends
        = RoomService.broadcastR room.clients
            (RoomService.RSMsg.chat payload.userId payload.message now) := by
      have hj : (payload.type == "join") = false := by simp [htype]
      simp only [RoomService.handleMessage, hj, hc, Bool.false_eq_true, if_false, if_true]
      simp only [RoomService.handleChat, hcode, hget]
      have hst : (room.status != "active") = false := by simp [hstatus]
      have hwc : (ws.roomCode == some c) = true := by simp [hws]
      simp only [hst, hwc, Bool.not_true, Bool.false_eq_true, if_false]
    refine ⟨hsends, ?_⟩
    intro hmem hopen
    rw [hsends]
    exact List.ne_nil_of_mem
      (mem_broadcastR room.clients _ ws hmem hopen)

/-- C7 witness: an unknown-type frame is dropped by the TTL server with no
sends and no state change. -/
theorem C7_malformed_frames_witness :
    ServerTTL.wsMessage
        { clients := [{ id := 1, readyState := OPEN }], lastActive := 3, messages := [] }
        "0000" "u1" (some { type := "blah" }) 9
      = ({ clients := [{ id := 1, readyState := OPEN }], lastActive := 3, messages := [] },
         []) :=
  C7_malformed_frames.2.1
    { clients := [{ id := 1, readyState := OPEN }], lastActive := 3, messages := [] }
    "0000" "u1" { type := "blah" } 9 (by decide)

/-- C8 counterexample: a joiner presenting a nonexistent room code is
destroyed silently at the upgrade gate — the attempt produces zero sends,
so it never receives the `error` frame the claim promises. -/
theorem C8_nonexistent_code_counterexample :
    upgradeHandler ([] : RoomsMap) "/ws" (some "1234") (some "u1") "fallback"
      = UpgradeResult.destroyed
    ∧ ServerTTL.attemptJoin [] "/ws" (some "1234") (some "u1") "fallback"
        { id := 1, readyState := OPEN } 0
      = { rooms := [], sends := [], closed := [] } := by
  refine ⟨by decide, by decide⟩

/-- C8 (amended): a join attempt with a nonexistent code never hangs, but
it is not always answered with an `error` frame: at the upgrade gate the
raw socket is destroyed silently with no sends at all; only a connection
that passed upgrade validation and then finds its room gone (it vanished
between validation and the connection event) receives `error`
"Room not found" followed by `close()`. -/
theorem C8_nonexistent_code :
    (∀ (limit : Nat) (rooms : RoomsMap) (pathname : String)
        (userIdParam : Option String) (randomId : String) (ws : WS) (now : Int)
        (code : String),
        hasRoom rooms code = false →
        attemptJoinWith limit rooms pathname (some code) userIdParam randomId ws now
          = { rooms := rooms, sends := [], closed := [] })
    ∧ (∀ (limit : Nat) (rooms : RoomsMap) (ws : WS) (roomCode userId : String)
        (now : Int),
        getRoom rooms roomCode = none →
        handleConnectionWith limit rooms ws roomCode userId now
          = { rooms := rooms
              sends := [(ws.id, ServerMsg.error "Room not found")]
              closed := [ws.id] }) := by
  constructor
  · intro limit rooms pathname userIdParam randomId ws now code hno
    unfold attemptJoinWith upgradeHandler
    by_cases hp : (pathname != "/ws") = true
    · rw [if_pos hp]
    · rw [if_neg hp]
      by_cases he : code.isEmpty = true
      · simp only [if_pos he]
      · simp only [if_neg he, hno, Bool.false_eq_true, if_false]
  · intro limit rooms ws roomCode userId now hget
    simp only [handleConnectionWith, hget]

/-- C8 witness: the amended theorem applied to a one-room registry and a
stranger code. -/
theorem C8_nonexistent_code_witness :
    attemptJoinWith 2
        [("0000", { clients := [], lastActive := 0, messages := [] })]
        "/ws" (some "9999") (some "u1") "fallback" { id := 3, readyState := OPEN } 1
      = { rooms := [("0000", { clients := [], lastActive := 0, messages := [] })]
          sends := [], closed := [] } :=
  C8_nonexistent_code.1 2
    [("0000", { clients := [], lastActive := 0, messages := [] })]
    "/ws" (some "u1") "fallback" { id := 3, readyState := OPEN } 1 "9999" (by decide)

/-- C9: in both standalone servers the broadcast/logged chat and image
records take `userId` and `code` from the handshake bindings, never from
the inbound payload: two inbound frames differing only in their `userId`,
`code` or `ts` fields produce identical results, and every record newly
appended to a room log carries the handshake-bound identity and room
code. -/
theorem C9_no_inband_spoofing :
    (∀ (room : Room) (roomCode userId : String) (now : Int) (p q : Payload),
        p.type = q.type → p.message = q.message → p.image = q.image →
        ServerTTL.wsMessage room roomCode userId (some p) now
          = ServerTTL.wsMessage room roomCode userId (some q) now
        ∧ ServerFixed.wsMessage room roomCode userId (some p) now
          = ServerFixed.wsMessage room roomCode userId (some q) now)
    ∧ (∀ (room : Room) (roomCode userId : String) (now : Int) (p : Payload),
        (∀ m ∈ (ServerTTL.wsMessage room roomCode userId (some p) now).1.messages,
          m ∈ room.messages ∨ (m.userId = userId ∧ m.code = roomCode))
        ∧ (∀ m ∈ (ServerFixed.wsMessage room roomCode userId (some p) now).1.messages,
          m ∈ room.messages ∨ (m.userId = userId ∧ m.code = roomCode))) := by
  constructor
  · intro room roomCode userId now p q ht hm hi
    constructor
    · simp only [ServerTTL.wsMessage, ht, hm, hi]
    · simp only [ServerFixed.wsMessage, ht, hm, hi]
  · intro room roomCode userId now p
    constructor
    · intro m hmem
      simp only [ServerTTL.wsMessage] at hmem
      split at hmem
      · rcases List.mem_append.mp hmem with h | h
        · exact Or.inl h
        · rcases List.mem_singleton.mp h with rfl
          exact Or.inr ⟨rfl, rfl⟩
      · exact Or.inl hmem
    · intro m hmem
      simp only [ServerFixed.wsMessage] at hmem
      split at hmem
      · exact Or.inl hmem
      · split at hmem
        · rcases List.mem_append.mp hmem with h | h
          · exact Or.inl h
          · rcases List.mem_singleton.mp h with rfl
            exact Or.inr ⟨rfl, rfl⟩
        · split at hmem
          · rcases List.mem_append.mp hmem with h | h
            · exact Or.inl h
            · rcases List.mem_singleton.mp h with rfl
              exact Or.inr ⟨rfl, rfl⟩
          · exact Or.inl hmem

/-- C9 witness: two chat frames that differ only in their in-band
`userId` field produce identical outputs. -/
theorem C9_no_inband_spoofing_witness :
    ServerTTL.wsMessage
        { clients := [{ id := 1, readyState := OPEN }], lastActive := 0, messages := [] }
        "0000" "real" (some { type := "chat", message := some "hi",
                              userId := some "victim" }) 3
      = ServerTTL.wsMessage
          { clients := [{ id := 1, readyState := OPEN }], lastActive := 0, messages := [] }
          "0000" "real" (some { type := "chat", message := some "hi",
                                userId := some "someone-else" }) 3 :=
  (C9_no_inband_spoofing.1
    { clients := [{ id := 1, readyState := OPEN }], lastActive := 0, messages := [] }
    "0000" "real" 3
    { type := "chat", message := some "hi", userId := some "victim" }
    { type := "chat", message := some "hi", userId := some "someone-else" }
    rfl rfl rfl).1
